import Mathlib

/-
Shallow embedding of `src/backend/api_server.py` (SilsAutoFluid).

Python strings are modelled as `List Char` (`PyStr`).  The string methods the
source uses (`str.strip`, `str.upper`, `str.replace(" ", "")`, truthiness,
`int(...)`) are modelled over the ASCII fragment relevant to the data:
`str.strip()` removes the six ASCII whitespace characters at both ends,
`str.upper()` maps `a`..`z` to `A`..`Z` (Lean's `Char.toUpper`), and
`str.replace(" ", "")` removes exactly the space character U+0020.
`int(x)` on a string accepts optional surrounding whitespace, an optional
sign, and a non-empty run of decimal digits, and raises `ValueError`
otherwise; on an int it is the identity.

The DataOne JSON record is modelled as a flat structure `RawRecord` holding
exactly the fields `extract_vehicle_and_fluids` reads (each `dict.get` chain
becomes one optional field; a missing key is `none`).  Raised exceptions
become `Except` errors; FastAPI `HTTPException`s become `ApiError`.
-/

namespace SilsAutoFluid

abbrev PyStr := List Char

/-- Coerce a Lean string literal to the `List Char` model of Python strings. -/
def pystr (s : String) : PyStr := s.data

/-- The six ASCII whitespace characters stripped by Python's `str.strip()`. -/
def isPySpace (c : Char) : Bool :=
  c.toNat == 32 || c.toNat == 9 || c.toNat == 10 || c.toNat == 13 ||
    c.toNat == 11 || c.toNat == 12

/-- Python `s.strip()`: drop whitespace from both ends. -/
def pyStrip (l : PyStr) : PyStr :=
  ((l.dropWhile isPySpace).reverse.dropWhile isPySpace).reverse

/-- Python `s.upper()` (ASCII fragment). -/
def pyUpper (l : PyStr) : PyStr := l.map Char.toUpper

/-- Python `s.replace(" ", "")`: remove every space character U+0020. -/
def removeSpaces (l : PyStr) : PyStr := l.filter (fun c => c != ' ')

/-- Python `x or y` on optional strings (`None` and `""` are falsy). -/
def pyOr (a b : Option PyStr) : Option PyStr :=
  match a with
  | some l => if l.isEmpty then b else some l
  | none => b

/-- A JSON scalar as it can appear in the provider's `year` field. -/
inductive PyScalar where
  | int (n : Int)
  | str (s : PyStr)
deriving DecidableEq

/-- Python truthiness of a scalar: `0` and `""` are falsy. -/
def pyTruthy : PyScalar → Bool
  | .int n => n != 0
  | .str s => !s.isEmpty

/-- The only exception the embedded extraction code can raise. -/
inductive PyErr where
  | valueError
deriving DecidableEq

/-- Value of one decimal digit character. -/
def digitVal (c : Char) : Nat := c.toNat - 48

/-- A non-empty all-digit string read as a natural number. -/
def parseNatDigits (l : PyStr) : Option Nat :=
  if !l.isEmpty && l.all Char.isDigit then
    some (l.foldl (fun acc c => acc * 10 + digitVal c) 0)
  else none

/-- Python `int(s)` on a string: surrounding whitespace, optional sign,
decimal digits; anything else raises `ValueError` (modelled as `none`). -/
def pyParseInt (s : PyStr) : Option Int :=
  match pyStrip s with
  | '+' :: rest => (parseNatDigits rest).map (fun n => (n : Int))
  | '-' :: rest => (parseNatDigits rest).map (fun n => -(n : Int))
  | t => (parseNatDigits t).map (fun n => (n : Int))

/-- Python `int(x)` on a scalar. -/
def pyInt : PyScalar → Except PyErr Int
  | .int n => .ok n
  | .str s =>
    match pyParseInt s with
    | some n => .ok n
    | none => .error .valueError

/-- The `FluidSystem` literal type of `api_server.py`. -/
inductive FluidSystem where
  | transmission
  | front_diff
  | rear_diff
  | transfer_case
  | coolant
  | power_steering
  | engine_oil
deriving DecidableEq

/-- The literal string value of a `FluidSystem` member. -/
def FluidSystem.str : FluidSystem → PyStr
  | .transmission => pystr "transmission"
  | .front_diff => pystr "front_diff"
  | .rear_diff => pystr "rear_diff"
  | .transfer_case => pystr "transfer_case"
  | .coolant => pystr "coolant"
  | .power_steering => pystr "power_steering"
  | .engine_oil => pystr "engine_oil"

/-- `class FluidProduct(BaseModel)`. -/
structure FluidProduct where
  id : PyStr
  name : PyStr
  type : FluidSystem
  compatible_specs : List PyStr
  not_for_specs : List PyStr := []
  notes : Option PyStr := none
deriving DecidableEq

/-- `class FluidMatch(BaseModel)`. -/
structure FluidMatch where
  product : FluidProduct
  match_reason : PyStr
deriving DecidableEq

/-- `class FluidWarning(BaseModel)`. -/
structure FluidWarning where
  message : PyStr
  products : List PyStr := []
deriving DecidableEq

/-- `class FluidRequirement(BaseModel)`. -/
structure FluidRequirement where
  system : FluidSystem
  required_spec : PyStr
  oem_name : Option PyStr := none
  «matches» : List FluidMatch
  warnings : List FluidWarning
deriving DecidableEq

/-- `class VehicleInfo(BaseModel)`. -/
structure VehicleInfo where
  vin : PyStr
  year : Option Int
  make : Option PyStr
  model : Option PyStr
  trim : Option PyStr := none
  engine : Option PyStr := none
deriving DecidableEq

/-- `class FluidResponse(BaseModel)`. -/
structure FluidResponse where
  vehicle : VehicleInfo
  fluids : List FluidRequirement
deriving DecidableEq

/-- The DataOne JSON record, flattened to exactly the fields
`extract_vehicle_and_fluids` reads.  A field is `none` when the
corresponding key path is absent from the raw JSON. -/
structure RawRecord where
  vehicle_vin : Option PyStr := none
  request_vin : Option PyStr := none
  year : Option PyScalar := none
  make : Option PyStr := none
  model : Option PyStr := none
  trim : Option PyStr := none
  engine_description : Option PyStr := none
  transmission_fluid_spec : Option PyStr := none
  transmission_fluid : Option PyStr := none
  coolant_spec : Option PyStr := none
  coolant : Option PyStr := none
  front_diff_fluid : Option PyStr := none
  front_axle_fluid : Option PyStr := none
  rear_diff_fluid : Option PyStr := none
  rear_axle_fluid : Option PyStr := none
  tcase_fluid : Option PyStr := none
  transfer_case_fluid : Option PyStr := none
  ps_fluid : Option PyStr := none
  power_steering_fluid : Option PyStr := none
  engine_oil_spec : Option PyStr := none
  engine_oil : Option PyStr := none
deriving DecidableEq

/-- `vehicle_record.get("vin") or data.get("request", {}).get("vin", "UNKNOWN")`. -/
def vinOf (r : RawRecord) : PyStr :=
  match r.vehicle_vin with
  | some v => if v.isEmpty then r.request_vin.getD (pystr "UNKNOWN") else v
  | none => r.request_vin.getD (pystr "UNKNOWN")

/-- `year=int(year) if year else None` (a raised `ValueError` propagates). -/
def yearOf (r : RawRecord) : Except PyErr (Option Int) :=
  match r.year with
  | none => .ok none
  | some y => if pyTruthy y then (pyInt y).map some else .ok none

/-- The `VehicleInfo(...)` construction inside `extract_vehicle_and_fluids`. -/
def vehicleOf (r : RawRecord) : Except PyErr VehicleInfo :=
  (yearOf r).map (fun yr =>
    { vin := vinOf r, year := yr, make := r.make, model := r.model,
      trim := r.trim, engine := r.engine_description })

/-- The inner closure `add_req(system, spec, oem_name=None)`:
`if not spec: return` then append a requirement with the stripped spec. -/
def add_req (system : FluidSystem) (spec : Option PyStr) : Option FluidRequirement :=
  match spec with
  | none => none
  | some s =>
    if s.isEmpty then none
    else some { system := system, required_spec := pyStrip s, oem_name := none,
                «matches» := [], warnings := [] }

/-- The seven `add_req` calls of `extract_vehicle_and_fluids`, in source
order, with the `tech.get(...) or service.get(...)` fallback per system. -/
def fluidRequirementsOf (data : RawRecord) : List FluidRequirement :=
  ([ add_req .transmission (pyOr data.transmission_fluid_spec data.transmission_fluid),
     add_req .coolant (pyOr data.coolant_spec data.coolant),
     add_req .front_diff (pyOr data.front_diff_fluid data.front_axle_fluid),
     add_req .rear_diff (pyOr data.rear_diff_fluid data.rear_axle_fluid),
     add_req .transfer_case (pyOr data.tcase_fluid data.transfer_case_fluid),
     add_req .power_steering (pyOr data.ps_fluid data.power_steering_fluid),
     add_req .engine_oil (pyOr data.engine_oil_spec data.engine_oil) ]).filterMap id

/-- `extract_vehicle_and_fluids(data)`. -/
def extract_vehicle_and_fluids (data : RawRecord) :
    Except PyErr (VehicleInfo × List FluidRequirement) :=
  (vehicleOf data).map (fun vehicle => (vehicle, fluidRequirementsOf data))

/-- `normalize_spec(s)`: `s.strip().upper().replace(" ", "")`. -/
def normalize_spec (s : PyStr) : PyStr := removeSpaces (pyUpper (pyStrip s))

/-- `req.system.replace('_', ' ')` as used in the warning messages. -/
def sysDisplay (sys : FluidSystem) : PyStr :=
  sys.str.map (fun c => if c = '_' then ' ' else c)

/-- `f"explicit match: {req.required_spec} in {product.name}.compatible_specs"`. -/
def matchReason (required_spec : PyStr) (product_name : PyStr) : PyStr :=
  pystr "explicit match: " ++ required_spec ++ pystr " in " ++ product_name ++
    pystr ".compatible_specs"

/-- The "no compatible fluid" warning message f-string. -/
def noCompatibleMsg (sys : FluidSystem) (required_spec : PyStr) : PyStr :=
  pystr "No compatible " ++ sysDisplay sys ++
    pystr " fluid in inventory for spec '" ++ required_spec ++ pystr "'."

/-- The "DO NOT use" warning message f-string. -/
def doNotUseMsg (sys : FluidSystem) (required_spec : PyStr) : PyStr :=
  pystr "DO NOT use these products for " ++ sysDisplay sys ++
    pystr " with spec '" ++ required_spec ++ pystr "'."

/-- The `for product in FLUID_INVENTORY` loop body of `enrich_with_matches`,
accumulating `(matches, explicit_bad)` in iteration order. -/
def scanInventory (required_norm : PyStr) (req_system : FluidSystem)
    (required_spec : PyStr) : List FluidProduct → List FluidMatch × List PyStr
  | [] => ([], [])
  | product :: rest =>
    let acc := scanInventory required_norm req_system required_spec rest
    if product.type ≠ req_system then acc
    else if required_norm ∈ product.not_for_specs.map normalize_spec then
      (acc.1, product.name :: acc.2)
    else if required_norm ∈ product.compatible_specs.map normalize_spec then
      ({ product := product,
         match_reason := matchReason required_spec product.name } :: acc.1, acc.2)
    else acc

/-- The per-requirement body of `enrich_with_matches`: run the product loop,
then attach the warnings in their fixed construction order. -/
def enrichOne (inventory : List FluidProduct) (req : FluidRequirement) :
    FluidRequirement :=
  let acc := scanInventory (normalize_spec req.required_spec) req.system
    req.required_spec inventory
  let warnings :=
    (if acc.1.isEmpty then
      [{ message := noCompatibleMsg req.system req.required_spec, products := [] }]
     else [])
    ++ (if acc.2.isEmpty then []
        else [{ message := doNotUseMsg req.system req.required_spec,
                products := acc.2 }])
  { req with «matches» := acc.1, warnings := warnings }

/-- `enrich_with_matches(fluid_reqs)`, with the module-global
`FLUID_INVENTORY` passed explicitly. -/
def enrich_with_matches (inventory : List FluidProduct)
    (fluid_reqs : List FluidRequirement) : List FluidRequirement :=
  fluid_reqs.map (enrichOne inventory)

/-- The `HTTPException`s raised by `get_fluids_for_vin`
(status 400 / 502 / 500). -/
inductive ApiError where
  | badRequest (detail : PyStr)
  | badGateway (detail : PyStr)
  | internalError (e : PyErr)
deriving DecidableEq

/-- `get_fluids_for_vin(vin)`.  `dataone` stands for `call_dataone`, whose
`RuntimeError`s carry a message string; any exception escaping extraction is
caught by the generic handler (status 500). -/
def get_fluids_for_vin (dataone : PyStr → Except PyStr RawRecord)
    (inventory : List FluidProduct) (vin : PyStr) : Except ApiError FluidResponse :=
  let v := pyUpper (pyStrip vin)
  if v.length ≠ 17 then .error (.badRequest (pystr "VIN must be 17 characters."))
  else
    match dataone v with
    | .error msg => .error (.badGateway msg)
    | .ok raw =>
      match extract_vehicle_and_fluids raw with
      | .error e => .error (.internalError e)
      | .ok (vehicle, fluid_reqs) =>
        .ok { vehicle := vehicle, fluids := enrich_with_matches inventory fluid_reqs }

/-- `removeSpaces ∘ pyUpper`: the part of `normalize_spec` after stripping. -/
def upfilter (l : PyStr) : PyStr := removeSpaces (pyUpper l)

/-- The head of the string, if any, is not whitespace. -/
def noLeadSpace (l : PyStr) : Prop := ∀ c, l.head? = some c → isPySpace c = false

/-- Neither end of the string is whitespace. -/
def stripped (l : PyStr) : Prop := noLeadSpace l ∧ noLeadSpace l.reverse

/-- Sample catalog entry: a transmission fluid compatible with MERCON ULV. -/
def sampleAtf : FluidProduct :=
  { id := pystr "atf-1", name := pystr "SuperATF", type := .transmission,
    compatible_specs := [pystr "MERCON ULV"], not_for_specs := [], notes := none }

/-- Sample requirement: a transmission requirement for MERCON ULV. -/
def sampleAtfReq : FluidRequirement :=
  { system := .transmission, required_spec := pystr "MERCON ULV", oem_name := none,
    «matches» := [], warnings := [] }

/-- Sample catalog entry: an engine oil listing 5W-30 both as compatible and
as forbidden (malformed but possible data). -/
def sampleForbiddenOil : FluidProduct :=
  { id := pystr "oil-1", name := pystr "BadOil", type := .engine_oil,
    compatible_specs := [pystr "5W-30"], not_for_specs := [pystr "5W-30"],
    notes := none }

/-- Sample requirement: an engine-oil requirement for 5W-30. -/
def sampleOilReq : FluidRequirement :=
  { system := .engine_oil, required_spec := pystr "5W-30", oem_name := none,
    «matches» := [], warnings := [] }

/-- A raw record with every key path absent: the provider reported nothing. -/
def emptyRecord : RawRecord := {}

/-- A raw record whose only datum is a whitespace-only transmission spec. -/
def blankSpecRecord : RawRecord := { transmission_fluid_spec := some (pystr " ") }

/-- A raw record whose year field is the non-numeric string `"abc"`. -/
def badYearRecord : RawRecord := { year := some (.str (pystr "abc")) }

/-- A raw record with a numeric year and a make. -/
def year2015Record : RawRecord :=
  { year := some (.int 2015), make := some (pystr "FORD") }

lemma toNat_ofNat_valid (n : Nat) (h : n < 55296) : (Char.ofNat n).toNat = n := by
  have hv : n.isValidChar := Or.inl h
  rw [Char.ofNat, dif_pos hv]
  rfl

lemma char_toNat_inj {a b : Char} (h : a.toNat = b.toNat) : a = b := by
  have := congrArg Char.ofNat h
  rwa [Char.ofNat_toNat, Char.ofNat_toNat] at this

lemma toUpper_toNat (c : Char) :
    (Char.toUpper c).toNat =
      if 97 ≤ c.toNat ∧ c.toNat ≤ 122 then c.toNat - 32 else c.toNat := by
  unfold Char.toUpper
  dsimp only
  by_cases h : 97 ≤ c.toNat ∧ c.toNat ≤ 122
  · rw [if_pos ⟨h.1, h.2⟩, if_pos h, toNat_ofNat_valid _ (by omega)]
  · rw [if_neg (fun hc => h ⟨hc.1, hc.2⟩), if_neg h]

lemma beq_chain_false (n : Nat) (h : 33 ≤ n) :
    (n == 32 || n == 9 || n == 10 || n == 13 || n == 11 || n == 12) = false := by
  simp only [Bool.or_eq_false_iff, beq_eq_false_iff_ne, ne_eq]
  omega

lemma isPySpace_toUpper (c : Char) : isPySpace (Char.toUpper c) = isPySpace c := by
  simp only [isPySpace, toUpper_toNat]
  by_cases h : 97 ≤ c.toNat ∧ c.toNat ≤ 122
  · rw [if_pos h, beq_chain_false _ (by omega), beq_chain_false _ (by omega)]
  · rw [if_neg h]

lemma toUpper_toUpper (c : Char) :
    Char.toUpper (Char.toUpper c) = Char.toUpper c := by
  apply char_toNat_inj
  rw [toUpper_toNat, toUpper_toNat]
  split_ifs <;> omega

lemma toUpper_ne_space {c : Char} (h : c ≠ ' ') : Char.toUpper c ≠ ' ' := by
  have hc : c.toNat ≠ 32 := fun he => h (char_toNat_inj he)
  have hu := toUpper_toNat c
  have hne : (Char.toUpper c).toNat ≠ 32 := by
    by_cases hr : 97 ≤ c.toNat ∧ c.toNat ≤ 122
    · rw [if_pos hr] at hu; omega
    · rw [if_neg hr] at hu; omega
  exact fun he => hne (by rw [he]; decide)

lemma space_isPySpace {c : Char} (h : isPySpace c = false) : c ≠ ' ' := by
  intro he
  rw [he] at h
  exact absurd h (by decide)

lemma noLeadSpace_dropWhile (l : PyStr) : noLeadSpace (l.dropWhile isPySpace) := by
  induction l with
  | nil => intro c h; simp [List.dropWhile] at h
  | cons a t ih =>
    intro c h
    rw [List.dropWhile_cons] at h
    by_cases ha : isPySpace a = true
    · rw [if_pos ha] at h
      exact ih c h
    · rw [if_neg ha] at h
      simp only [List.head?_cons, Option.some.injEq] at h
      rw [← h]
      exact Bool.eq_false_iff.mpr ha

lemma dropWhile_eq_self_of_noLead {l : PyStr} (h : noLeadSpace l) :
    l.dropWhile isPySpace = l := by
  cases l with
  | nil => rfl
  | cons a t =>
    rw [List.dropWhile_cons, if_neg (by simp [h a rfl])]

lemma stripped_pyStrip (l : PyStr) : stripped (pyStrip l) := by
  unfold pyStrip stripped
  constructor
  · intro c hc
    rw [List.head?_reverse] at hc
    have hBne : ((l.dropWhile isPySpace).reverse.dropWhile isPySpace) ≠ [] := by
      intro h0
      rw [h0] at hc
      simp at hc
    obtain ⟨t, ht⟩ := List.dropWhile_suffix
      (l := (l.dropWhile isPySpace).reverse) isPySpace
    have h1 : ((l.dropWhile isPySpace).reverse).getLast? = some c := by
      rw [← ht, List.getLast?_append_of_ne_nil _ hBne]
      exact hc
    rw [List.getLast?_reverse] at h1
    exact noLeadSpace_dropWhile l c h1
  · rw [List.reverse_reverse]
    exact noLeadSpace_dropWhile _

lemma pyStrip_eq_self_of_stripped {l : PyStr} (h : stripped l) : pyStrip l = l := by
  unfold pyStrip
  rw [dropWhile_eq_self_of_noLead h.1, dropWhile_eq_self_of_noLead h.2,
    List.reverse_reverse]

lemma noLeadSpace_upfilter {l : PyStr} (h : noLeadSpace l) :
    noLeadSpace (upfilter l) := by
  cases l with
  | nil => intro c hc; simp [upfilter, removeSpaces, pyUpper] at hc
  | cons a t =>
    have ha : isPySpace a = false := h a rfl
    have hne : Char.toUpper a ≠ ' ' := toUpper_ne_space (space_isPySpace ha)
    intro c hc
    unfold upfilter removeSpaces pyUpper at hc
    rw [List.map_cons, List.filter_cons, if_pos (by simpa using hne)] at hc
    simp only [List.head?_cons, Option.some.injEq] at hc
    rw [← hc, isPySpace_toUpper]
    exact ha

lemma upfilter_reverse (l : PyStr) : upfilter l.reverse = (upfilter l).reverse := by
  unfold upfilter removeSpaces pyUpper
  rw [List.map_reverse, List.filter_reverse]

lemma stripped_upfilter {l : PyStr} (h : stripped l) : stripped (upfilter l) := by
  refine ⟨noLeadSpace_upfilter h.1, ?_⟩
  rw [← upfilter_reverse]
  exact noLeadSpace_upfilter h.2

lemma upfilter_eq_map_filter (l : PyStr) :
    upfilter l = (l.filter (fun c => Char.toUpper c != ' ')).map Char.toUpper := by
  unfold upfilter removeSpaces pyUpper
  rw [List.filter_map]
  rfl

lemma upfilter_upfilter (l : PyStr) : upfilter (upfilter l) = upfilter l := by
  rw [upfilter_eq_map_filter l, upfilter_eq_map_filter, List.filter_map,
    List.map_map, List.filter_filter]
  simp only [Function.comp, toUpper_toUpper, Bool.and_self]
  exact List.map_congr_left (fun c _ => toUpper_toUpper c)

lemma pyUpper_upfilter (l : PyStr) : pyUpper (upfilter l) = upfilter l := by
  rw [upfilter_eq_map_filter]
  unfold pyUpper
  rw [List.map_map]
  exact List.map_congr_left (fun c _ => toUpper_toUpper c)

lemma enrichOne_matches (inventory : List FluidProduct) (req : FluidRequirement) :
    (enrichOne inventory req).«matches» =
      (scanInventory (normalize_spec req.required_spec) req.system
        req.required_spec inventory).1 := rfl

lemma enrichOne_warnings (inventory : List FluidProduct) (req : FluidRequirement) :
    (enrichOne inventory req).warnings =
      (if (scanInventory (normalize_spec req.required_spec) req.system
            req.required_spec inventory).1.isEmpty then
        [{ message := noCompatibleMsg req.system req.required_spec, products := [] }]
       else [])
      ++ (if (scanInventory (normalize_spec req.required_spec) req.system
            req.required_spec inventory).2.isEmpty then []
          else [{ message := doNotUseMsg req.system req.required_spec,
                  products := (scanInventory (normalize_spec req.required_spec)
                    req.system req.required_spec inventory).2 }]) := rfl

lemma scan_matches_reason (rn : PyStr) (sys : FluidSystem) (rs : PyStr)
    (inv : List FluidProduct) :
    ∀ m ∈ (scanInventory rn sys rs inv).1,
      m.match_reason = matchReason rs m.product.name := by
  induction inv with
  | nil => intro m hm; simp [scanInventory] at hm
  | cons q rest ih =>
    intro m hm
    rcases hsr : scanInventory rn sys rs rest with ⟨ms, bad⟩
    rw [hsr] at ih
    simp only [scanInventory, hsr] at hm
    split at hm
    · exact ih m hm
    · split at hm
      · exact ih m hm
      · split at hm
        · rcases List.mem_cons.mp hm with h | h
          · rw [h]
          · exact ih m h
        · exact ih m hm

lemma scan_no_match_of_forbidden {rn : PyStr} {sys : FluidSystem} {rs : PyStr}
    {p : FluidProduct}
    (hf : rn ∈ p.not_for_specs.map normalize_spec) (inv : List FluidProduct) :
    ∀ m ∈ (scanInventory rn sys rs inv).1, m.product ≠ p := by
  induction inv with
  | nil => intro m hm; simp [scanInventory] at hm
  | cons q rest ih =>
    intro m hm
    rcases hsr : scanInventory rn sys rs rest with ⟨ms, bad⟩
    rw [hsr] at ih
    simp only [scanInventory, hsr] at hm
    split at hm
    · exact ih m hm
    · split at hm
      · exact ih m hm
      · split at hm
        · rcases List.mem_cons.mp hm with h | h
          · intro hep
            rename_i hnotforb hcompat
            rw [h] at hep
            have hqp : q = p := hep
            rw [hqp] at hnotforb
            exact hnotforb hf
          · exact ih m h
        · exact ih m hm

lemma scan_bad_of_forbidden {rn : PyStr} {sys : FluidSystem} (rs : PyStr)
    {p : FluidProduct} (ht : p.type = sys)
    (hf : rn ∈ p.not_for_specs.map normalize_spec) (inv : List FluidProduct)
    (hmem : p ∈ inv) : p.name ∈ (scanInventory rn sys rs inv).2 := by
  induction inv with
  | nil => cases hmem
  | cons q rest ih =>
    rcases hsr : scanInventory rn sys rs rest with ⟨ms, bad⟩
    rw [hsr] at ih
    simp only [scanInventory, hsr]
    rcases List.mem_cons.mp hmem with h | h
    · subst h
      rw [if_neg (by simp [ht]), if_pos hf]
      exact List.mem_cons_self _ _
    · have hb := ih h
      split
      · exact hb
      · split
        · exact List.mem_cons_of_mem _ hb
        · split
          · exact hb
          · exact hb

lemma noCompat_ne_doNotUse (sys : FluidSystem) (rs : PyStr) :
    noCompatibleMsg sys rs ≠ doNotUseMsg sys rs := by
  unfold noCompatibleMsg doNotUseMsg
  have e1 : pystr "No compatible " = 'N' :: pystr "o compatible " := rfl
  have e2 : pystr "DO NOT use these products for " =
    'D' :: pystr "O NOT use these products for " := rfl
  rw [e1, e2, List.cons_append, List.cons_append]
  intro h
  injection h with h1 _
  exact absurd h1 (by decide)

lemma add_req_some {system : FluidSystem} {spec : Option PyStr}
    {req : FluidRequirement} (h : add_req system spec = some req) :
    req.system = system ∧ req.«matches» = [] ∧ req.warnings = []
    ∧ ∃ s, spec = some s ∧ s ≠ [] ∧ req.required_spec = pyStrip s := by
  cases spec with
  | none => exact absurd h (by simp [add_req])
  | some s =>
    simp only [add_req] at h
    by_cases hse : s.isEmpty
    · rw [if_pos hse] at h
      cases h
    · rw [if_neg hse] at h
      injection h with h
      subst h
      exact ⟨rfl, rfl, rfl, s, rfl,
        fun h0 => hse (by rw [h0]; rfl), rfl⟩

/-- Claim C9: normalization is idempotent — for every string `s`,
`normalize_spec (normalize_spec s) = normalize_spec s`. -/
theorem claim_C9 (s : PyStr) :
    normalize_spec (normalize_spec s) = normalize_spec s := by
  show upfilter (pyStrip (upfilter (pyStrip s))) = upfilter (pyStrip s)
  rw [pyStrip_eq_self_of_stripped (stripped_upfilter (stripped_pyStrip s)),
    upfilter_upfilter]

/-- Claim C4, counterexample: `normalize_spec` does NOT remove all internal
whitespace — an internal tab survives (`"a\tb"` normalizes to `"A\tB"`,
not `"AB"`), because the code only replaces the space character. -/
theorem claim_C4_counterexample :
    normalize_spec (pystr "a\tb") = pystr "A\tB"
    ∧ isPySpace '\t' = true
    ∧ normalize_spec (pystr "a\tb") ≠ pystr "AB" := by decide

/-- Claim C4 as amended: normalization strips leading and trailing
whitespace, upper-cases, and removes all internal space (U+0020) characters
— internal whitespace other than spaces is preserved — never failing; the
normalized-membership test used by matching holds precisely when some listed
specification has an identical normalized token; and embedded punctuation is
preserved ("5W-30" and "5W30" normalize to distinct tokens). -/
theorem claim_C4_amended (s t : PyStr) (specs : List PyStr) :
    pyStrip (normalize_spec s) = normalize_spec s
    ∧ ' ' ∉ normalize_spec s
    ∧ pyUpper (normalize_spec s) = normalize_spec s
    ∧ (normalize_spec t ∈ specs.map normalize_spec ↔
        ∃ x ∈ specs, normalize_spec x = normalize_spec t)
    ∧ normalize_spec (pystr "5W-30") ≠ normalize_spec (pystr "5W30") := by
  refine ⟨?_, ?_, ?_, List.mem_map, by decide⟩
  · exact pyStrip_eq_self_of_stripped (stripped_upfilter (stripped_pyStrip s))
  · intro hmem
    have := List.of_mem_filter hmem
    simp at this
  · exact pyUpper_upfilter (pyStrip s)

/-- Claim C1: a product of the requirement's system whose normalized
forbidden set contains the requirement's normalized spec is recorded in the
bad list (carried by a warning) and contributes no match, even when the spec
is also in its compatible set. -/
theorem claim_C1 (inventory : List FluidProduct) (req : FluidRequirement)
    (p : FluidProduct) (hmem : p ∈ inventory) (htype : p.type = req.system)
    (hforb : normalize_spec req.required_spec ∈
      p.not_for_specs.map normalize_spec) :
    (∃ w ∈ (enrichOne inventory req).warnings, p.name ∈ w.products)
    ∧ ∀ m ∈ (enrichOne inventory req).«matches», m.product ≠ p := by
  have hbad := scan_bad_of_forbidden req.required_spec htype hforb inventory hmem
  constructor
  · refine ⟨⟨doNotUseMsg req.system req.required_spec,
      (scanInventory (normalize_spec req.required_spec) req.system
        req.required_spec inventory).2⟩, ?_, hbad⟩
    rw [enrichOne_warnings]
    apply List.mem_append_right
    rw [if_neg (by rw [List.isEmpty_iff]; exact List.ne_nil_of_mem hbad)]
    exact List.mem_singleton.mpr rfl
  · rw [enrichOne_matches]
    exact scan_no_match_of_forbidden hforb inventory

/-- Claim C1 witness: the sample forbidden oil product at the sample
5W-30 requirement. -/
theorem claim_C1_witness :
    (∃ w ∈ (enrichOne [sampleForbiddenOil] sampleOilReq).warnings,
      sampleForbiddenOil.name ∈ w.products)
    ∧ ∀ m ∈ (enrichOne [sampleForbiddenOil] sampleOilReq).«matches»,
        m.product ≠ sampleForbiddenOil :=
  claim_C1 [sampleForbiddenOil] sampleOilReq sampleForbiddenOil
    (List.mem_cons_self _ _) rfl (by decide)

/-- Claim C7, counterexample: the recorded match reason is
`"explicit match: <spec> in <product>.compatible_specs"`, not
`"matched spec: <spec>"` as the specification states. -/
theorem claim_C7_counterexample :
    (enrichOne [sampleAtf] sampleAtfReq).«matches».map FluidMatch.match_reason
      = [pystr "explicit match: MERCON ULV in SuperATF.compatible_specs"]
    ∧ pystr "explicit match: MERCON ULV in SuperATF.compatible_specs"
      ≠ pystr "matched spec: " ++ sampleAtfReq.required_spec := by decide

/-- Claim C7 as amended: every recorded match reason is exactly
`"explicit match: "` + the original (pre-normalization) required-spec text +
`" in "` + the product's name + `".compatible_specs"`. -/
theorem claim_C7_amended (inventory : List FluidProduct)
    (req : FluidRequirement) :
    ∀ m ∈ (enrichOne inventory req).«matches»,
      m.match_reason = pystr "explicit match: " ++ req.required_spec
        ++ pystr " in " ++ m.product.name ++ pystr ".compatible_specs" := by
  intro m hm
  rw [enrichOne_matches] at hm
  exact scan_matches_reason _ _ _ _ m hm

/-- Claim C7 witness: the single match of the sample MERCON ULV
requirement against the sample catalog. -/
theorem claim_C7_witness :
    ({ product := sampleAtf,
       match_reason := matchReason sampleAtfReq.required_spec sampleAtf.name }
      : FluidMatch).match_reason
      = pystr "explicit match: " ++ sampleAtfReq.required_spec ++ pystr " in "
        ++ ({ product := sampleAtf,
              match_reason := matchReason sampleAtfReq.required_spec
                sampleAtf.name } : FluidMatch).product.name
        ++ pystr ".compatible_specs" :=
  claim_C7_amended [sampleAtf] sampleAtfReq _ (by decide)

/-- Claim C2: after matching, the "no compatible" warning is present iff the
match list is empty; the "do not use" warning is present iff the bad list is
non-empty, and it carries exactly the bad product names in encounter order;
when both are present "no compatible" precedes "do not use"; and no other
warnings are attached. -/
theorem claim_C2 (inventory : List FluidProduct) (req : FluidRequirement) :
    ((∃ w ∈ (enrichOne inventory req).warnings,
        w.message = noCompatibleMsg req.system req.required_spec) ↔
      (enrichOne inventory req).«matches» = [])
    ∧ ((∃ w ∈ (enrichOne inventory req).warnings,
        w.message = doNotUseMsg req.system req.required_spec) ↔
      (scanInventory (normalize_spec req.required_spec) req.system
        req.required_spec inventory).2 ≠ [])
    ∧ (∀ w ∈ (enrichOne inventory req).warnings,
        w.message = doNotUseMsg req.system req.required_spec →
        w.products = (scanInventory (normalize_spec req.required_spec)
          req.system req.required_spec inventory).2)
    ∧ (∀ w ∈ (enrichOne inventory req).warnings,
        w.message = noCompatibleMsg req.system req.required_spec ∨
        w.message = doNotUseMsg req.system req.required_spec)
    ∧ ((enrichOne inventory req).«matches» = [] →
        (scanInventory (normalize_spec req.required_spec) req.system
          req.required_spec inventory).2 ≠ [] →
        (enrichOne inventory req).warnings =
          [{ message := noCompatibleMsg req.system req.required_spec,
             products := [] },
           { message := doNotUseMsg req.system req.required_spec,
             products := (scanInventory (normalize_spec req.required_spec)
               req.system req.required_spec inventory).2 }]) := by
  have hne := noCompat_ne_doNotUse req.system req.required_spec
  rcases hsr : scanInventory (normalize_spec req.required_spec) req.system
    req.required_spec inventory with ⟨ms, bad⟩
  simp only [enrichOne_matches, enrichOne_warnings, hsr]
  by_cases hm : ms = [] <;> by_cases hb : bad = []
  · subst hm; subst hb
    simp [hne]
  · subst hm
    have hbf := List.isEmpty_eq_false.mpr hb
    simp [hbf, hne, hb]
  · subst hb
    have hmf := List.isEmpty_eq_false.mpr hm
    simp [hmf, hne, hm]
  · have hbf := List.isEmpty_eq_false.mpr hb
    have hmf := List.isEmpty_eq_false.mpr hm
    simp [hbf, hmf, hne, Ne.symm hne, hm, hb]

/-- Claim C2 witness: with an empty catalog, the sample requirement gets the
"no compatible" warning. -/
theorem claim_C2_witness :
    ∃ w ∈ (enrichOne [] sampleAtfReq).warnings,
      w.message = noCompatibleMsg sampleAtfReq.system
        sampleAtfReq.required_spec :=
  (claim_C2 [] sampleAtfReq).1.mpr rfl

/-- Claim C3, counterexample: on a raw record the provider left entirely
empty (no vehicle data, no specs), extraction does NOT fail — it returns a
VehicleInfo with VIN "UNKNOWN" and zero requirements; no `DecodingError`
exists anywhere in the code. -/
theorem claim_C3_counterexample :
    extract_vehicle_and_fluids emptyRecord =
      .ok ({ vin := pystr "UNKNOWN", year := none, make := none, model := none,
             trim := none, engine := none }, []) := rfl

/-- Claim C3 as amended: when the raw record cannot be interpreted (in
particular whenever the year field is absent), extraction succeeds,
returning the fallback VehicleInfo (VIN "UNKNOWN" when no VIN is present)
and whatever requirements the record yields — an empty response rather than
an error. -/
theorem claim_C3_amended (r : RawRecord) (h : r.year = none) :
    extract_vehicle_and_fluids r =
      .ok ({ vin := vinOf r, year := none, make := r.make, model := r.model,
             trim := r.trim, engine := r.engine_description },
           fluidRequirementsOf r) := by
  unfold extract_vehicle_and_fluids vehicleOf yearOf
  rw [h]
  rfl

/-- Claim C3 witness: the amended claim applied to the all-absent record. -/
theorem claim_C3_witness :
    emptyRecord.year = none
    ∧ extract_vehicle_and_fluids emptyRecord =
      .ok ({ vin := vinOf emptyRecord, year := none, make := emptyRecord.make,
             model := emptyRecord.model, trim := emptyRecord.trim,
             engine := emptyRecord.engine_description },
           fluidRequirementsOf emptyRecord) :=
  ⟨rfl, claim_C3_amended emptyRecord rfl⟩

/-- Claim C5, counterexample: a whitespace-only specification (" ") is
truthy in Python, so a requirement IS produced and its required spec is
blank after stripping — contradicting "no requirement with a blank
specification is produced". -/
theorem claim_C5_counterexample :
    fluidRequirementsOf blankSpecRecord =
      [{ system := .transmission, required_spec := [], oem_name := none,
         «matches» := [], warnings := [] }] := rfl

/-- Claim C5 as amended: a system is omitted exactly when its specification
is absent (`None`) or the empty string; every emitted requirement comes from
a non-empty specification string and carries its stripped text (so a
whitespace-only specification yields a blank required spec), and every
emitted requirement has empty matches and empty warnings. -/
theorem claim_C5_amended (system : FluidSystem) (spec : Option PyStr)
    (r : RawRecord) :
    (add_req system spec = none ↔ spec = none ∨ spec = some [])
    ∧ (∀ req, add_req system spec = some req →
        req.system = system ∧ req.«matches» = [] ∧ req.warnings = []
        ∧ ∃ s, spec = some s ∧ s ≠ [] ∧ req.required_spec = pyStrip s)
    ∧ (∀ req ∈ fluidRequirementsOf r, req.«matches» = [] ∧ req.warnings = []) := by
  refine ⟨?_, fun req h => add_req_some h, ?_⟩
  · cases spec with
    | none => simp [add_req]
    | some s =>
      by_cases hse : s.isEmpty
      · have h0 : s = [] := List.isEmpty_iff.mp hse
        subst h0
        simp [add_req]
      · have h0 : s ≠ [] := fun h1 => hse (by rw [h1]; rfl)
        simp [add_req, if_neg hse, h0]
  · intro req hmem
    unfold fluidRequirementsOf at hmem
    rw [List.mem_filterMap] at hmem
    obtain ⟨a, ha, hid⟩ := hmem
    simp only [id] at hid
    simp only [List.mem_cons, List.not_mem_nil, or_false] at ha
    have ha2 : ∃ sys sp, a = add_req sys sp := by
      rcases ha with h | h | h | h | h | h | h <;> exact ⟨_, _, h⟩
    obtain ⟨sys, sp, rfl⟩ := ha2
    exact ⟨(add_req_some hid).2.1, (add_req_some hid).2.2.1⟩

/-- Claim C5 witness: an absent specification yields no requirement. -/
theorem claim_C5_witness :
    add_req FluidSystem.transmission none = none :=
  (claim_C5_amended FluidSystem.transmission none emptyRecord).1.mpr (Or.inl rfl)

/-- Claim C6, counterexample: a present, truthy, non-numeric year field
("abc") makes extraction raise `ValueError` — the model year is NOT "set to
absent (not an error)" as the specification states. -/
theorem claim_C6_counterexample :
    extract_vehicle_and_fluids badYearRecord = .error .valueError := rfl

/-- Claim C6 as amended: the model year is `int(year)` when the year field
is present, truthy and numeric; it is absent when the field is missing or
falsy (`None`, `0`, `""`); a present, truthy, NON-numeric year raises
`ValueError` (surfaced as an unexpected error) instead of being set to
absent; the remaining optional fields (make, model, trim, engine) pass
through as text, defaulting to absent. -/
theorem claim_C6_amended (r : RawRecord) :
    (r.year = none → vehicleOf r = .ok
      { vin := vinOf r, year := none, make := r.make, model := r.model,
        trim := r.trim, engine := r.engine_description })
    ∧ (r.year = some (.int 0) → vehicleOf r = .ok
      { vin := vinOf r, year := none, make := r.make, model := r.model,
        trim := r.trim, engine := r.engine_description })
    ∧ (∀ n : Int, r.year = some (.int n) → n ≠ 0 → vehicleOf r = .ok
      { vin := vinOf r, year := some n, make := r.make, model := r.model,
        trim := r.trim, engine := r.engine_description })
    ∧ (r.year = some (.str []) → vehicleOf r = .ok
      { vin := vinOf r, year := none, make := r.make, model := r.model,
        trim := r.trim, engine := r.engine_description })
    ∧ (∀ s : PyStr, r.year = some (.str s) → s ≠ [] →
        vehicleOf r = match pyParseInt s with
          | some n => .ok
            { vin := vinOf r, year := some n, make := r.make, model := r.model,
              trim := r.trim, engine := r.engine_description }
          | none => .error .valueError) := by
  refine ⟨?_, ?_, ?_, ?_, ?_⟩
  · intro h
    unfold vehicleOf yearOf
    rw [h]
    rfl
  · intro h
    unfold vehicleOf yearOf
    rw [h]
    rfl
  · intro n h hn
    have ht : pyTruthy (.int n) = true := by
      simp [pyTruthy, hn]
    simp only [vehicleOf, yearOf, h]
    rw [if_pos ht]
    rfl
  · intro h
    unfold vehicleOf yearOf
    rw [h]
    rfl
  · intro s h hs
    have ht : pyTruthy (.str s) = true := by
      simp [pyTruthy, List.isEmpty_eq_false.mpr hs]
    simp only [vehicleOf, yearOf, h]
    rw [if_pos ht]
    simp only [pyInt]
    cases hp : pyParseInt s with
    | none => rfl
    | some n => rfl

/-- Claim C6 witness: a numeric year 2015 is parsed into the vehicle info. -/
theorem claim_C6_witness :
    year2015Record.year = some (.int 2015)
    ∧ vehicleOf year2015Record = .ok
      { vin := vinOf year2015Record, year := some 2015,
        make := year2015Record.make, model := year2015Record.model,
        trim := year2015Record.trim,
        engine := year2015Record.engine_description } :=
  ⟨rfl, (claim_C6_amended year2015Record).2.2.1 2015 rfl (by decide)⟩

/-- Claim C8: matching is order-preserving and per-requirement independent —
the output list has the enriched requirements in input order, each output
element depends only on the corresponding input requirement and the catalog,
and permuting the requirement list permutes the outputs pointwise. -/
theorem claim_C8 (inventory : List FluidProduct)
    (reqs reqs₂ : List FluidRequirement) (hperm : reqs.Perm reqs₂) (i : Nat) :
    (enrich_with_matches inventory reqs).length = reqs.length
    ∧ (enrich_with_matches inventory reqs)[i]? =
        (reqs[i]?).map (enrichOne inventory)
    ∧ (enrich_with_matches inventory reqs).Perm
        (enrich_with_matches inventory reqs₂) :=
  ⟨List.length_map _ _, List.getElem?_map _ _ _, List.Perm.map _ hperm⟩

/-- Claim C8 witness: the singleton requirement list against the empty
catalog. -/
theorem claim_C8_witness :
    (enrich_with_matches [] [sampleAtfReq]).length = [sampleAtfReq].length
    ∧ (enrich_with_matches [] [sampleAtfReq])[0]? =
        ([sampleAtfReq][0]?).map (enrichOne [])
    ∧ (enrich_with_matches [] [sampleAtfReq]).Perm
        (enrich_with_matches [] [sampleAtfReq]) :=
  claim_C8 [] [sampleAtfReq] [sampleAtfReq] (List.Perm.refl _) 0

/-- Claim C10: a VIN that is not exactly 17 characters after trimming and
upper-casing fails with the 400 input-validation error, and the result does
not depend on the decoder or the inventory — no decode attempt is made and
the pipeline is never entered. -/
theorem claim_C10 (dataone₁ dataone₂ : PyStr → Except PyStr RawRecord)
    (inv₁ inv₂ : List FluidProduct) (vin : PyStr)
    (h : (pyUpper (pyStrip vin)).length ≠ 17) :
    get_fluids_for_vin dataone₁ inv₁ vin
      = .error (.badRequest (pystr "VIN must be 17 characters."))
    ∧ get_fluids_for_vin dataone₁ inv₁ vin
      = get_fluids_for_vin dataone₂ inv₂ vin := by
  simp only [get_fluids_for_vin]
  rw [if_pos h, if_pos h]
  exact ⟨rfl, rfl⟩

/-- Claim C10 witness: the 10-character VIN "1234567890" is rejected with
the 400 error (decoder irrelevant). -/
theorem claim_C10_witness :
    (pyUpper (pyStrip (pystr "1234567890"))).length ≠ 17
    ∧ get_fluids_for_vin (fun _ => .error (pystr "unreachable")) []
        (pystr "1234567890")
      = .error (.badRequest (pystr "VIN must be 17 characters.")) :=
  ⟨by decide,
    (claim_C10 (fun _ => .error (pystr "unreachable")) (fun _ => .ok {}) [] []
      (pystr "1234567890") (by decide)).1⟩

end SilsAutoFluid
